import Mathlib

/-!
Verification of the Cisco Umbrella graph integration's API client
(`src/client.ts`): the request/retry engine (`requestWithRetry`), the token
lifecycle (`getToken`), the two pagination iterators (`requestIterator`,
`requestIteratorWithNestedData`), error classification
(`createIntegrationError`) and `verifyAuthentication`.

The embedding is a shallow one: the mutable client state (the shared
`headers.Authorization` slot and a count of credential exchanges performed
against the token endpoint) is threaded explicitly, and the external HTTP
world is an oracle, a function from the index of the physical attempt to the
outcome the provider produces for that attempt.
-/

namespace CiscoUmbrella

/-- Constant `RATE_LIMIT_SLEEP_TIME = 5000` from `client.ts`. -/
def RATE_LIMIT_SLEEP_TIME : Nat := 5000

/-- Constant `MAX_RETRIES = 3` from `client.ts`. -/
def MAX_RETRIES : Nat := 3

/-- Constant `PAGE_SIZE = 100` from `client.ts`. -/
def PAGE_SIZE : Nat := 100

/-- Constant `BASE_URL` from `client.ts`. -/
def BASE_URL : String := "https://api.umbrella.com"

/-- The mutable state of one `APIClient`: the shared
`headers.Authorization` slot (`""` means "not yet acquired or invalidated"),
plus an instrumentation counter of how many credential exchanges (POSTs to
`/auth/v2/token`) have been performed. -/
structure ClientState where
  auth : String
  tokenCalls : Nat
deriving Repr, DecidableEq

/-- Function `getToken` from `client.ts`: if the shared `Authorization` slot is empty
(JS falsy for a string), perform the credential exchange and store
`Bearer <access_token>` in the slot; otherwise return the slot unchanged.
`tokenSupply n` is the `access_token` the token endpoint returns on the
`n`-th (0-based) successful exchange. -/
def getToken (tokenSupply : Nat → String) (s : ClientState) : String × ClientState :=
  if s.auth = "" then
    let newAuth := "Bearer " ++ tokenSupply s.tokenCalls
    (newAuth, ⟨newAuth, s.tokenCalls + 1⟩)
  else (s.auth, s)

/-- The state after `await this.getToken()` (the returned string is
discarded by `requestWithRetry`, only the state effect matters). -/
def ensureTok (tokenSupply : Nat → String) (s : ClientState) : ClientState :=
  (getToken tokenSupply s).2

/-- The `headers` field of a `GaxiosOptions` request spec.  In JS this is an
object reference: every in-repo caller passes `this.headers`, aliasing the
client's shared headers object (`shared`); `own a` is any other headers
object, carrying its own `Authorization` value `a`. -/
inductive HeadersSpec where
  | shared
  | own (auth : String)
deriving Repr, DecidableEq

/-- The parts of a `GaxiosOptions` request spec that the engine observes. -/
structure RequestSpec where
  url : String
  headers : HeadersSpec
deriving Repr, DecidableEq

/-- The `Authorization` value actually carried by a request issued with
spec `spec` while the client state is `s`: the shared slot's current value
when the caller aliased `this.headers`, the caller's own value otherwise. -/
def issuedAuthorization (spec : RequestSpec) (s : ClientState) : String :=
  match spec.headers with
  | .shared => s.auth
  | .own a => a

/-- What the provider does on one physical HTTP attempt: a successful
response with payload `resp`, a `GaxiosError` carrying a response with the
given status / statusText / `config.url` / optional `retry-after` header
(seconds), or a non-HTTP failure (transport/parsing) with a `message` and
`name`. -/
inductive AttemptResult (T : Type) where
  | success (resp : T)
  | gaxiosError (status : Nat) (statusText : String) (url : String) (retryAfter : Option Nat)
  | otherError (message : String) (name : String)

/-- The error taxonomy of `createIntegrationError` plus the generic
`IntegrationError` wrap for non-`GaxiosError` failures. -/
inductive IntegrationErr where
  | authenticationError (status : Nat) (statusText : String) (endpoint : String)
  | authorizationError (status : Nat) (statusText : String) (endpoint : String)
  | providerAPIError (status : Nat) (statusText : String) (endpoint : String)
  | integrationError (message : String) (code : String)
deriving Repr, DecidableEq

/-- Function `createIntegrationError` from `client.ts`: 401 becomes
`IntegrationProviderAuthenticationError`, 403 becomes
`IntegrationProviderAuthorizationError`, anything else becomes
`IntegrationProviderAPIError`, each carrying status/statusText/endpoint. -/
def createIntegrationError (status : Nat) (statusText endpoint : String) : IntegrationErr :=
  match status with
  | 401 => .authenticationError 401 statusText endpoint
  | 403 => .authorizationError 403 statusText endpoint
  | _ => .providerAPIError status statusText endpoint

/-- How one call of `requestWithRetry` ends: a returned response, a thrown
classified error, or the implicit `undefined` return when the retry budget
is exhausted. -/
inductive RWROutcome (T : Type) where
  | ok (resp : T)
  | thrown (e : IntegrationErr)
  | noResponse
deriving Repr

/-- The observable behaviour of one `requestWithRetry` call: its outcome,
the final client state, the `Authorization` value attached to each physical
HTTP attempt it issued (in order), and the sleep durations (ms) of each
rate-limit backoff (in order). -/
structure RWRResult (T : Type) where
  outcome : RWROutcome T
  finalState : ClientState
  attempts : List String
  sleeps : List Nat

/-- The sleep duration chosen on a 429: `retry-after * 1000` ms when the
header is present, else `RATE_LIMIT_SLEEP_TIME`. -/
def sleepFor (retryAfter : Option Nat) : Nat :=
  match retryAfter with
  | some ra => ra * 1000
  | none => RATE_LIMIT_SLEEP_TIME

/-- The body of `requestWithRetry`'s do-while loop.  `responses i` is the
provider's outcome for the `i`-th physical attempt of this logical request.
Each iteration: ensure a token (mutating the shared slot), issue the
attempt, then on failure absorb a 429 (sleep, increment the counter) or a
first-attempt 401/403 (clear the slot, increment the counter), looping
while `retryCounter < MAX_RETRIES` (checked after the increment, as the
do-while does), and otherwise throw a classified error.  The `fuel`
parameter only makes the recursion structural; called with
`fuel = MAX_RETRIES` and `retryCounter = 0` the `fuel = 0` branch is
unreachable, since each recursive call decrements `fuel` and increments
`retryCounter` under the guard `retryCounter + 1 < MAX_RETRIES`. -/
def requestWithRetryAux {T : Type} (tokenSupply : Nat → String) (spec : RequestSpec)
    (responses : Nat → AttemptResult T) :
    Nat → Nat → Nat → ClientState → List String → List Nat → RWRResult T
  | 0, _, _, s, auths, sleeps => ⟨.noResponse, s, auths, sleeps⟩
  | fuel + 1, attemptIdx, retryCounter, s, auths, sleeps =>
    let s1 := ensureTok tokenSupply s
    let auths1 := auths ++ [issuedAuthorization spec s1]
    match responses attemptIdx with
    | .success r => ⟨.ok r, s1, auths1, sleeps⟩
    | .gaxiosError status statusText url retryAfter =>
      if status = 429 then
        let sleeps1 := sleeps ++ [sleepFor retryAfter]
        if retryCounter + 1 < MAX_RETRIES then
          requestWithRetryAux tokenSupply spec responses fuel (attemptIdx + 1)
            (retryCounter + 1) s1 auths1 sleeps1
        else ⟨.noResponse, s1, auths1, sleeps1⟩
      else if (status = 401 ∨ status = 403) ∧ retryCounter = 0 then
        if retryCounter + 1 < MAX_RETRIES then
          requestWithRetryAux tokenSupply spec responses fuel (attemptIdx + 1)
            (retryCounter + 1) ⟨"", s1.tokenCalls⟩ auths1 sleeps
        else ⟨.noResponse, ⟨"", s1.tokenCalls⟩, auths1, sleeps⟩
      else ⟨.thrown (createIntegrationError status statusText url), s1, auths1, sleeps⟩
    | .otherError message name => ⟨.thrown (.integrationError message name), s1, auths1, sleeps⟩

/-- Function `requestWithRetry` from `client.ts`: the do-while loop entered with
`retryCounter = 0`, no attempts issued and no sleeps performed yet. -/
def requestWithRetry {T : Type} (tokenSupply : Nat → String) (spec : RequestSpec)
    (responses : Nat → AttemptResult T) (s : ClientState) : RWRResult T :=
  requestWithRetryAux tokenSupply spec responses MAX_RETRIES 0 0 s [] []

/-- The request spec of `verifyAuthentication`'s probe. -/
def verifySpec : RequestSpec :=
  ⟨BASE_URL ++ "/deployments/v2/sites?limit=1", .shared⟩

/-- Function `verifyAuthentication` from `client.ts`: issue the probe through
`requestWithRetry`; `if (response) return;` — the function returns normally
both on a response and on `undefined` (falling off the end), and only
propagates a thrown error.  First component: the propagated error, if any. -/
def verifyAuthentication {T : Type} (tokenSupply : Nat → String)
    (responses : Nat → AttemptResult T) (s : ClientState) :
    Option IntegrationErr × ClientState :=
  let r := requestWithRetry tokenSupply verifySpec responses s
  match r.outcome with
  | .thrown e => (some e, r.finalState)
  | _ => (none, r.finalState)

/-- The URL built for page `page` of resource `requestUrl`:
`BASE_URL + requestUrl + "?page=" + page + "&limit=" + PAGE_SIZE`. -/
def mkPageUrl (requestUrl : String) (page : Nat) : String :=
  BASE_URL ++ requestUrl ++ "?page=" ++ toString page ++ "&limit=" ++ toString PAGE_SIZE

/-- The observable behaviour of one pagination-iterator call: the items
handed to the iteratee in order, the page numbers requested in order, the
error propagated out of `requestWithRetry` (if any), the final client
state, and whether the modelling fuel sufficed (`false` only when the fuel
ran out before the loop did). -/
structure IterResult (T : Type) where
  callbacks : List T
  requestedPages : List Nat
  thrownError : Option IntegrationErr
  finalState : ClientState
  fuelOk : Bool

/-- The loop of `requestIterator` from `client.ts`, at current page number
`page`.  `env page i` is the provider's outcome for the `i`-th physical
attempt of the page-`page` request.  One round: fetch the page through
`requestWithRetry`; if a response arrived with a non-empty array, run the
iteratee on each item in order and advance, continuing only while the page
held exactly `PAGE_SIZE` items; otherwise (`undefined` response or empty
data) stop.  A thrown error propagates.  `fuel` bounds the number of rounds
(the JS loop is unbounded); `fuelOk = false` flags an exhausted bound. -/
def requestIteratorAux {T : Type} (tokenSupply : Nat → String) (requestUrl : String)
    (env : Nat → Nat → AttemptResult (List T)) :
    Nat → Nat → ClientState → IterResult T
  | 0, _, s => ⟨[], [], none, s, false⟩
  | fuel + 1, page, s =>
    let r := requestWithRetry tokenSupply ⟨mkPageUrl requestUrl page, .shared⟩ (env page) s
    match r.outcome with
    | .ok data =>
      if 0 < data.length then
        if data.length = PAGE_SIZE then
          let rest := requestIteratorAux tokenSupply requestUrl env fuel (page + 1) r.finalState
          ⟨data ++ rest.callbacks, page :: rest.requestedPages, rest.thrownError,
            rest.finalState, rest.fuelOk⟩
        else ⟨data, [page], none, r.finalState, true⟩
      else ⟨[], [page], none, r.finalState, true⟩
    | .noResponse => ⟨[], [page], none, r.finalState, true⟩
    | .thrown e => ⟨[], [page], some e, r.finalState, true⟩

/-- Function `requestIterator` from `client.ts`: the flat-array iterator, starting at
`page = 1`. -/
def requestIterator {T : Type} (tokenSupply : Nat → String) (requestUrl : String)
    (env : Nat → Nat → AttemptResult (List T)) (fuel : Nat) (s : ClientState) : IterResult T :=
  requestIteratorAux tokenSupply requestUrl env fuel 1 s

/-- Modelled from the spec: the repository's `UmbrellaMetaResponse<T>` type
(declared in `src/types.ts`, which is not part of the provided sources) is
the nested envelope — "response body shape where records are under a `data`
field alongside sibling metadata".  Only the `data` field is observed by
the client; `none` models a body without a (truthy) `data` field. -/
structure UmbrellaMetaResponse (T : Type) where
  data : Option (List T)

/-- The loop of `requestIteratorWithNestedData` from `client.ts`: like
`requestIteratorAux`, but the record array lives under the envelope's
`data` field, and the guard is `if (response?.data?.data)` — the field's
presence, with no length check (an empty array is truthy in JS, so an empty
`data` array runs zero iteratee calls, advances the page counter and then
exits on `receivedCount == PAGE_SIZE` failing). -/
def requestIteratorWithNestedDataAux {T : Type} (tokenSupply : Nat → String)
    (requestUrl : String) (env : Nat → Nat → AttemptResult (UmbrellaMetaResponse T)) :
    Nat → Nat → ClientState → IterResult T
  | 0, _, s => ⟨[], [], none, s, false⟩
  | fuel + 1, page, s =>
    let r := requestWithRetry tokenSupply ⟨mkPageUrl requestUrl page, .shared⟩ (env page) s
    match r.outcome with
    | .ok envelope =>
      match envelope.data with
      | some data =>
        if data.length = PAGE_SIZE then
          let rest := requestIteratorWithNestedDataAux tokenSupply requestUrl env fuel
            (page + 1) r.finalState
          ⟨data ++ rest.callbacks, page :: rest.requestedPages, rest.thrownError,
            rest.finalState, rest.fuelOk⟩
        else ⟨data, [page], none, r.finalState, true⟩
      | none => ⟨[], [page], none, r.finalState, true⟩
    | .noResponse => ⟨[], [page], none, r.finalState, true⟩
    | .thrown e => ⟨[], [page], some e, r.finalState, true⟩

/-- Function `requestIteratorWithNestedData` from `client.ts`: the nested-envelope
iterator, starting at `page = 1`. -/
def requestIteratorWithNestedData {T : Type} (tokenSupply : Nat → String)
    (requestUrl : String) (env : Nat → Nat → AttemptResult (UmbrellaMetaResponse T))
    (fuel : Nat) (s : ClientState) : IterResult T :=
  requestIteratorWithNestedDataAux tokenSupply requestUrl env fuel 1 s

/-- A provider that answers every attempt of the page-`p` request with the
`p`-th page (1-based) of `pages`, and an empty page past the end. -/
def envOfPages {T : Type} (pages : List (List T)) :
    Nat → Nat → AttemptResult (List T) :=
  fun page _ => .success (pages.getD (page - 1) [])

/-- The same provider behind the nested envelope. -/
def envOfPagesNested {T : Type} (pages : List (List T)) :
    Nat → Nat → AttemptResult (UmbrellaMetaResponse T) :=
  fun page _ => .success ⟨some (pages.getD (page - 1) [])⟩

/-- The items an iterator must hand to the iteratee when the provider holds
`pages`: each full (`PAGE_SIZE`-sized) page in order, up to and including
the first short page. -/
def expectedCallbacks {T : Type} : List (List T) → List T
  | [] => []
  | p :: rest => if p.length = PAGE_SIZE then p ++ expectedCallbacks rest else p

/-- The number of page requests an iterator must issue when the provider
holds `pages`: one per full page plus the one short (or empty,
past-the-end) page that stops the loop. -/
def expectedNumRequests {T : Type} : List (List T) → Nat
  | [] => 1
  | p :: rest => if p.length = PAGE_SIZE then expectedNumRequests rest + 1 else 1

/-- A provider script for one logical request: attempt `i` receives the
`i`-th entry of `script`, and `deflt` past the end. -/
def envSeq {T : Type} (script : List (AttemptResult T)) (deflt : AttemptResult T) :
    Nat → AttemptResult T :=
  fun i => script.getD i deflt

/-- A provider whose page 1 is `p` and whose every later page request is
rate-limited on every attempt. -/
def envFullThen429 {T : Type} (p : List T) (statusText url : String)
    (retryAfter : Option Nat) : Nat → Nat → AttemptResult (List T) :=
  fun page _ => if page = 1 then .success p else .gaxiosError 429 statusText url retryAfter

/-- A provider whose page 1 is `p` and whose every later page is empty:
the legitimate end-of-data shape after one page. -/
def envFullThenEmpty {T : Type} (p : List T) : Nat → Nat → AttemptResult (List T) :=
  fun page _ => if page = 1 then .success p else .success []

/-- One resource-iterator call in a sequential run: its endpoint path, its
provider behaviour and the fuel bounding its page loop. -/
structure IterationCall (T : Type) where
  requestUrl : String
  env : Nat → Nat → AttemptResult (List T)
  fuel : Nat

/-- A sequence of resource iterations driven one after the other on the
same client (the singleton client as used by the steps), threading the
shared client state through; returns the final state. -/
def runIterations {T : Type} (tokenSupply : Nat → String) :
    List (IterationCall T) → ClientState → ClientState
  | [], s => s
  | c :: rest, s =>
    runIterations tokenSupply rest
      (requestIterator tokenSupply c.requestUrl c.env c.fuel s).finalState

/-- A provider call that succeeds on some attempt payload, whatever the
attempt index: the "no 401/403 observed" regime of a healthy run. -/
def allSuccess {T : Type} (env : Nat → Nat → AttemptResult (List T)) : Prop :=
  ∀ page att, ∃ l, env page att = .success l

/-- Concrete token endpoint used by witnesses. -/
def tokenSupply0 : Nat → String := fun _ => "tok"

/-- Concrete fresh client state used by witnesses. -/
def s0 : ClientState := ⟨"", 0⟩

/-- Concrete client state already holding a token, used by witnesses. -/
def sTok : ClientState := ⟨"Bearer old", 5⟩

/-- The spec's canonical page scenario: pages of sizes 100, 100, 47. -/
def pagesC1 : List (List Nat) := [List.range 100, List.range 100, List.range 47]

/-- Token endpoint for the C3 counterexample: always issues `fresh`. -/
def tokenSupplyC3 : Nat → String := fun _ => "fresh"

/-- Provider script for the C3 counterexample: a 401 on the first attempt,
success on the next. -/
def envC3 : Nat → AttemptResult Nat :=
  envSeq [.gaxiosError 401 "Unauthorized" "https://api.umbrella.com/admin/v2/users" none,
    .success 7] (.success 7)

/-! ## Helper lemmas -/

theorem bearer_ne_empty (x : String) : "Bearer " ++ x ≠ "" := by
  intro h
  have h2 : ("Bearer " ++ x).data = "".data := congrArg String.data h
  simp [String.data_append] at h2

theorem getToken_of_ne (tokenSupply : Nat → String) (s : ClientState) (h : s.auth ≠ "") :
    getToken tokenSupply s = (s.auth, s) := by
  simp [getToken, h]

theorem ensureTok_of_ne (tokenSupply : Nat → String) (s : ClientState) (h : s.auth ≠ "") :
    ensureTok tokenSupply s = s := by
  simp [ensureTok, getToken, h]

theorem ensureTok_of_empty (tokenSupply : Nat → String) (s : ClientState) (h : s.auth = "") :
    ensureTok tokenSupply s =
      ⟨"Bearer " ++ tokenSupply s.tokenCalls, s.tokenCalls + 1⟩ := by
  simp [ensureTok, getToken, h]

theorem ensureTok_auth_ne (tokenSupply : Nat → String) (s : ClientState) :
    (ensureTok tokenSupply s).auth ≠ "" := by
  by_cases h : s.auth = ""
  · rw [ensureTok_of_empty tokenSupply s h]
    exact bearer_ne_empty _
  · rw [ensureTok_of_ne tokenSupply s h]
    exact h

theorem ensureTok_idem (tokenSupply : Nat → String) (s : ClientState) :
    ensureTok tokenSupply (ensureTok tokenSupply s) = ensureTok tokenSupply s :=
  ensureTok_of_ne tokenSupply _ (ensureTok_auth_ne tokenSupply s)

theorem ensureTok_tokenCalls_le (tokenSupply : Nat → String) (s : ClientState) :
    (ensureTok tokenSupply s).tokenCalls ≤ s.tokenCalls + 1 := by
  by_cases h : s.auth = ""
  · rw [ensureTok_of_empty tokenSupply s h]
  · rw [ensureTok_of_ne tokenSupply s h]
    omega

/-! ### One-step unfoldings of the retry loop -/

theorem rwrAux_success {T : Type} (tokenSupply : Nat → String) (spec : RequestSpec)
    (responses : Nat → AttemptResult T) (r : T)
    (fuel attemptIdx retryCounter : Nat) (s : ClientState)
    (auths : List String) (sleeps : List Nat)
    (h : responses attemptIdx = .success r) :
    requestWithRetryAux tokenSupply spec responses (fuel + 1) attemptIdx retryCounter s
        auths sleeps =
      ⟨.ok r, ensureTok tokenSupply s,
        auths ++ [issuedAuthorization spec (ensureTok tokenSupply s)], sleeps⟩ := by
  simp [requestWithRetryAux, h]

theorem rwrAux_429_cont {T : Type} (tokenSupply : Nat → String) (spec : RequestSpec)
    (responses : Nat → AttemptResult T) (statusText url : String) (retryAfter : Option Nat)
    (fuel attemptIdx retryCounter : Nat) (s : ClientState)
    (auths : List String) (sleeps : List Nat)
    (h : responses attemptIdx = .gaxiosError 429 statusText url retryAfter)
    (hc : retryCounter + 1 < MAX_RETRIES) :
    requestWithRetryAux tokenSupply spec responses (fuel + 1) attemptIdx retryCounter s
        auths sleeps =
      requestWithRetryAux tokenSupply spec responses fuel (attemptIdx + 1)
        (retryCounter + 1) (ensureTok tokenSupply s)
        (auths ++ [issuedAuthorization spec (ensureTok tokenSupply s)])
        (sleeps ++ [sleepFor retryAfter]) := by
  simp [requestWithRetryAux, h, hc]

theorem rwrAux_429_stop {T : Type} (tokenSupply : Nat → String) (spec : RequestSpec)
    (responses : Nat → AttemptResult T) (statusText url : String) (retryAfter : Option Nat)
    (fuel attemptIdx retryCounter : Nat) (s : ClientState)
    (auths : List String) (sleeps : List Nat)
    (h : responses attemptIdx = .gaxiosError 429 statusText url retryAfter)
    (hc : ¬(retryCounter + 1 < MAX_RETRIES)) :
    requestWithRetryAux tokenSupply spec responses (fuel + 1) attemptIdx retryCounter s
        auths sleeps =
      ⟨.noResponse, ensureTok tokenSupply s,
        auths ++ [issuedAuthorization spec (ensureTok tokenSupply s)],
        sleeps ++ [sleepFor retryAfter]⟩ := by
  simp [requestWithRetryAux, h, hc]

theorem rwrAux_auth_cont {T : Type} (tokenSupply : Nat → String) (spec : RequestSpec)
    (responses : Nat → AttemptResult T) (status : Nat) (statusText url : String)
    (retryAfter : Option Nat) (fuel attemptIdx : Nat) (s : ClientState)
    (auths : List String) (sleeps : List Nat)
    (h : responses attemptIdx = .gaxiosError status statusText url retryAfter)
    (hs : status = 401 ∨ status = 403) :
    requestWithRetryAux tokenSupply spec responses (fuel + 1) attemptIdx 0 s
        auths sleeps =
      requestWithRetryAux tokenSupply spec responses fuel (attemptIdx + 1) 1
        ⟨"", (ensureTok tokenSupply s).tokenCalls⟩
        (auths ++ [issuedAuthorization spec (ensureTok tokenSupply s)]) sleeps := by
  have h429 : status ≠ 429 := by omega
  simp [requestWithRetryAux, h, h429, hs, MAX_RETRIES]

theorem rwrAux_fatal {T : Type} (tokenSupply : Nat → String) (spec : RequestSpec)
    (responses : Nat → AttemptResult T) (status : Nat) (statusText url : String)
    (retryAfter : Option Nat) (fuel attemptIdx retryCounter : Nat) (s : ClientState)
    (auths : List String) (sleeps : List Nat)
    (h : responses attemptIdx = .gaxiosError status statusText url retryAfter)
    (h429 : status ≠ 429)
    (hauth : ¬((status = 401 ∨ status = 403) ∧ retryCounter = 0)) :
    requestWithRetryAux tokenSupply spec responses (fuel + 1) attemptIdx retryCounter s
        auths sleeps =
      ⟨.thrown (createIntegrationError status statusText url), ensureTok tokenSupply s,
        auths ++ [issuedAuthorization spec (ensureTok tokenSupply s)], sleeps⟩ := by
  simp [requestWithRetryAux, h, h429, hauth]

theorem rwrAux_other {T : Type} (tokenSupply : Nat → String) (spec : RequestSpec)
    (responses : Nat → AttemptResult T) (message name : String)
    (fuel attemptIdx retryCounter : Nat) (s : ClientState)
    (auths : List String) (sleeps : List Nat)
    (h : responses attemptIdx = .otherError message name) :
    requestWithRetryAux tokenSupply spec responses (fuel + 1) attemptIdx retryCounter s
        auths sleeps =
      ⟨.thrown (.integrationError message name), ensureTok tokenSupply s,
        auths ++ [issuedAuthorization spec (ensureTok tokenSupply s)], sleeps⟩ := by
  simp [requestWithRetryAux, h]

/-- A request whose first attempt succeeds returns that response at once:
one attempt issued, no sleeps, state only touched by `getToken`. -/
theorem rwr_success {T : Type} (tokenSupply : Nat → String) (spec : RequestSpec)
    (responses : Nat → AttemptResult T) (r : T) (s : ClientState)
    (h : responses 0 = .success r) :
    requestWithRetry tokenSupply spec responses s =
      ⟨.ok r, ensureTok tokenSupply s,
        [issuedAuthorization spec (ensureTok tokenSupply s)], []⟩ := by
  show requestWithRetryAux tokenSupply spec responses (2 + 1) 0 0 s [] [] = _
  rw [rwrAux_success tokenSupply spec responses r 2 0 0 s [] [] h]
  simp

/-! ### One-step unfoldings of the pagination loops -/

theorem iterAux_success_full {T : Type} (tokenSupply : Nat → String) (requestUrl : String)
    (env : Nat → Nat → AttemptResult (List T)) (fuel page : Nat) (s : ClientState)
    (l : List T) (h : env page 0 = .success l) (hl : l.length = PAGE_SIZE) :
    requestIteratorAux tokenSupply requestUrl env (fuel + 1) page s =
      ⟨l ++ (requestIteratorAux tokenSupply requestUrl env fuel (page + 1)
          (ensureTok tokenSupply s)).callbacks,
        page :: (requestIteratorAux tokenSupply requestUrl env fuel (page + 1)
          (ensureTok tokenSupply s)).requestedPages,
        (requestIteratorAux tokenSupply requestUrl env fuel (page + 1)
          (ensureTok tokenSupply s)).thrownError,
        (requestIteratorAux tokenSupply requestUrl env fuel (page + 1)
          (ensureTok tokenSupply s)).finalState,
        (requestIteratorAux tokenSupply requestUrl env fuel (page + 1)
          (ensureTok tokenSupply s)).fuelOk⟩ := by
  have hpos : 0 < l.length := by rw [hl]; decide
  simp only [requestIteratorAux,
    rwr_success tokenSupply ⟨mkPageUrl requestUrl page, .shared⟩ (env page) l s h,
    hl, hpos, if_true, (show (0:Nat) < PAGE_SIZE by decide)]

theorem iterAux_success_short {T : Type} (tokenSupply : Nat → String) (requestUrl : String)
    (env : Nat → Nat → AttemptResult (List T)) (fuel page : Nat) (s : ClientState)
    (l : List T) (h : env page 0 = .success l) (hl : l.length ≠ PAGE_SIZE) :
    requestIteratorAux tokenSupply requestUrl env (fuel + 1) page s =
      ⟨l, [page], none, ensureTok tokenSupply s, true⟩ := by
  by_cases hpos : 0 < l.length
  · simp only [requestIteratorAux,
      rwr_success tokenSupply ⟨mkPageUrl requestUrl page, .shared⟩ (env page) l s h,
      hl, hpos, if_true, if_false]
  · have hnil : l = [] := List.length_eq_zero.mp (by omega)
    subst hnil
    simp only [requestIteratorAux,
      rwr_success tokenSupply ⟨mkPageUrl requestUrl page, .shared⟩ (env page) [] s h]
    simp

/-- The flat-array pagination loop over a provider holding `pages` starting
at page number `page`: the iteratee receives every item of every full page
in order up to and including the first short page, the requested page
numbers are consecutive from `page`, and nothing is thrown. -/
theorem iterAux_on_pages {T : Type} (tokenSupply : Nat → String) (requestUrl : String)
    (pages : List (List T)) :
    ∀ (page : Nat) (env : Nat → Nat → AttemptResult (List T))
      (_ : ∀ j att, env (page + j) att = .success (pages.getD j [])) (s : ClientState),
      (requestIteratorAux tokenSupply requestUrl env (pages.length + 1) page s).callbacks =
          expectedCallbacks pages ∧
        (requestIteratorAux tokenSupply requestUrl env (pages.length + 1) page
              s).requestedPages =
          List.range' page (expectedNumRequests pages) ∧
        (requestIteratorAux tokenSupply requestUrl env (pages.length + 1) page
              s).thrownError = none := by
  induction pages with
  | nil =>
    intro page env henv s
    have h0 : env page 0 = .success [] := by simpa using henv 0 0
    simp only [List.length_nil]
    have hne : (([] : List T)).length ≠ PAGE_SIZE := by simp [PAGE_SIZE]
    rw [iterAux_success_short tokenSupply requestUrl env 0 page s [] h0 hne]
    simp [expectedCallbacks, expectedNumRequests, List.range']
  | cons p rest ih =>
    intro page env henv s
    have h0 : env page 0 = .success p := by simpa using henv 0 0
    simp only [List.length_cons]
    by_cases hp : p.length = PAGE_SIZE
    · have ih' := ih (page + 1) env
        (fun j att => by
          have h := henv (j + 1) att
          rw [show page + (j + 1) = page + 1 + j by omega] at h
          simpa [List.getD_cons_succ] using h)
        (ensureTok tokenSupply s)
      rw [iterAux_success_full tokenSupply requestUrl env (rest.length + 1) page s p h0 hp]
      refine ⟨?_, ?_, ?_⟩
      · simp only [expectedCallbacks, hp, if_pos]
        rw [ih'.1]
      · simp only [expectedNumRequests, hp, if_pos, List.range'_succ]
        rw [ih'.2.1]
      · exact ih'.2.2
    · rw [iterAux_success_short tokenSupply requestUrl env (rest.length + 1) page s p h0 hp]
      refine ⟨?_, ?_, ?_⟩
      · simp [expectedCallbacks, hp]
      · simp [expectedNumRequests, hp, List.range']
      · rfl

theorem iterNestedAux_success_full {T : Type} (tokenSupply : Nat → String)
    (requestUrl : String) (env : Nat → Nat → AttemptResult (UmbrellaMetaResponse T))
    (fuel page : Nat) (s : ClientState) (l : List T)
    (h : env page 0 = .success ⟨some l⟩) (hl : l.length = PAGE_SIZE) :
    requestIteratorWithNestedDataAux tokenSupply requestUrl env (fuel + 1) page s =
      ⟨l ++ (requestIteratorWithNestedDataAux tokenSupply requestUrl env fuel (page + 1)
          (ensureTok tokenSupply s)).callbacks,
        page :: (requestIteratorWithNestedDataAux tokenSupply requestUrl env fuel (page + 1)
          (ensureTok tokenSupply s)).requestedPages,
        (requestIteratorWithNestedDataAux tokenSupply requestUrl env fuel (page + 1)
          (ensureTok tokenSupply s)).thrownError,
        (requestIteratorWithNestedDataAux tokenSupply requestUrl env fuel (page + 1)
          (ensureTok tokenSupply s)).finalState,
        (requestIteratorWithNestedDataAux tokenSupply requestUrl env fuel (page + 1)
          (ensureTok tokenSupply s)).fuelOk⟩ := by
  simp only [requestIteratorWithNestedDataAux,
    rwr_success tokenSupply ⟨mkPageUrl requestUrl page, .shared⟩ (env page) ⟨some l⟩ s h,
    hl, if_pos]

theorem iterNestedAux_success_short {T : Type} (tokenSupply : Nat → String)
    (requestUrl : String) (env : Nat → Nat → AttemptResult (UmbrellaMetaResponse T))
    (fuel page : Nat) (s : ClientState) (l : List T)
    (h : env page 0 = .success ⟨some l⟩) (hl : l.length ≠ PAGE_SIZE) :
    requestIteratorWithNestedDataAux tokenSupply requestUrl env (fuel + 1) page s =
      ⟨l, [page], none, ensureTok tokenSupply s, true⟩ := by
  simp only [requestIteratorWithNestedDataAux,
    rwr_success tokenSupply ⟨mkPageUrl requestUrl page, .shared⟩ (env page) ⟨some l⟩ s h,
    hl, if_neg, if_false]

theorem iterNestedAux_on_pages {T : Type} (tokenSupply : Nat → String) (requestUrl : String)
    (pages : List (List T)) :
    ∀ (page : Nat) (env : Nat → Nat → AttemptResult (UmbrellaMetaResponse T))
      (_ : ∀ j att, env (page + j) att = .success ⟨some (pages.getD j [])⟩)
      (s : ClientState),
      (requestIteratorWithNestedDataAux tokenSupply requestUrl env (pages.length + 1) page
            s).callbacks = expectedCallbacks pages ∧
        (requestIteratorWithNestedDataAux tokenSupply requestUrl env (pages.length + 1) page
              s).requestedPages = List.range' page (expectedNumRequests pages) ∧
        (requestIteratorWithNestedDataAux tokenSupply requestUrl env (pages.length + 1) page
              s).thrownError = none := by
  induction pages with
  | nil =>
    intro page env henv s
    have h0 : env page 0 = .success ⟨some []⟩ := by simpa using henv 0 0
    simp only [List.length_nil]
    have hne : (([] : List T)).length ≠ PAGE_SIZE := by simp [PAGE_SIZE]
    rw [iterNestedAux_success_short tokenSupply requestUrl env 0 page s [] h0 hne]
    simp [expectedCallbacks, expectedNumRequests, List.range']
  | cons p rest ih =>
    intro page env henv s
    have h0 : env page 0 = .success ⟨some p⟩ := by simpa using henv 0 0
    simp only [List.length_cons]
    by_cases hp : p.length = PAGE_SIZE
    · have ih' := ih (page + 1) env
        (fun j att => by
          have h := henv (j + 1) att
          rw [show page + (j + 1) = page + 1 + j by omega] at h
          simpa [List.getD_cons_succ] using h)
        (ensureTok tokenSupply s)
      rw [iterNestedAux_success_full tokenSupply requestUrl env (rest.length + 1) page s p
        h0 hp]
      refine ⟨?_, ?_, ?_⟩
      · simp only [expectedCallbacks, hp, if_pos]
        rw [ih'.1]
      · simp only [expectedNumRequests, hp, if_pos, List.range'_succ]
        rw [ih'.2.1]
      · exact ih'.2.2
    · rw [iterNestedAux_success_short tokenSupply requestUrl env (rest.length + 1) page s p
        h0 hp]
      refine ⟨?_, ?_, ?_⟩
      · simp [expectedCallbacks, hp]
      · simp [expectedNumRequests, hp, List.range']
      · rfl

theorem iterAux_finalState_allSuccess {T : Type} (tokenSupply : Nat → String)
    (requestUrl : String) (env : Nat → Nat → AttemptResult (List T))
    (h : allSuccess env) :
    ∀ (fuel page : Nat) (s : ClientState),
      (requestIteratorAux tokenSupply requestUrl env fuel page s).finalState = s ∨
        (requestIteratorAux tokenSupply requestUrl env fuel page s).finalState =
          ensureTok tokenSupply s := by
  intro fuel
  induction fuel with
  | zero => intro page s; left; rfl
  | succ fuel ih =>
    intro page s
    obtain ⟨l, hl⟩ := h page 0
    by_cases hfull : l.length = PAGE_SIZE
    · rw [iterAux_success_full tokenSupply requestUrl env fuel page s l hl hfull]
      rcases ih (page + 1) (ensureTok tokenSupply s) with h1 | h1
      · right; exact h1
      · right
        show (requestIteratorAux tokenSupply requestUrl env fuel (page + 1)
          (ensureTok tokenSupply s)).finalState = ensureTok tokenSupply s
        rw [h1, ensureTok_idem]
    · rw [iterAux_success_short tokenSupply requestUrl env fuel page s l hl hfull]
      right; rfl

theorem runIterations_state {T : Type} (tokenSupply : Nat → String) :
    ∀ (calls : List (IterationCall T)) (s : ClientState),
      (∀ c ∈ calls, allSuccess c.env) →
      (runIterations tokenSupply calls s = s ∨
        runIterations tokenSupply calls s = ensureTok tokenSupply s) := by
  intro calls
  induction calls with
  | nil => intro s _; left; rfl
  | cons c rest ih =>
    intro s h
    have hc : allSuccess c.env := h c (by simp)
    have hrest : ∀ c' ∈ rest, allSuccess c'.env := fun c' hm => h c' (by simp [hm])
    simp only [runIterations, requestIterator]
    rcases iterAux_finalState_allSuccess tokenSupply c.requestUrl c.env hc c.fuel 1 s
      with h1 | h1
    · rw [h1]
      exact ih s hrest
    · rw [h1]
      rcases ih (ensureTok tokenSupply s) hrest with h2 | h2
      · right; exact h2
      · right; rw [h2, ensureTok_idem]



set_option maxRecDepth 8192 in
/-- C1: for every sequence of pages returned by the provider, both
`requestIterator` and `requestIteratorWithNestedData` hand the iteratee
exactly the records of the consumed pages, in page order and in-page order,
request consecutive page numbers starting at 1 (each with `limit = 100` in
the URL), stop requesting as soon as a page holds fewer than `PAGE_SIZE`
items (an empty page included), and throw nothing; for pages of sizes
`[100, 100, 47]` the iteratee runs exactly 247 times over exactly 3
requests, pages 1, 2, 3. -/
theorem claim_C1 {T : Type} (tokenSupply : Nat → String) (requestUrl nestedUrl : String)
    (pages : List (List T)) (s sN : ClientState) (page : Nat) :
    ((requestIterator tokenSupply requestUrl (envOfPages pages) (pages.length + 1)
          s).callbacks = expectedCallbacks pages ∧
      (requestIterator tokenSupply requestUrl (envOfPages pages) (pages.length + 1)
          s).requestedPages = List.range' 1 (expectedNumRequests pages) ∧
      (requestIterator tokenSupply requestUrl (envOfPages pages) (pages.length + 1)
          s).thrownError = none) ∧
    ((requestIteratorWithNestedData tokenSupply nestedUrl (envOfPagesNested pages)
          (pages.length + 1) sN).callbacks = expectedCallbacks pages ∧
      (requestIteratorWithNestedData tokenSupply nestedUrl (envOfPagesNested pages)
          (pages.length + 1) sN).requestedPages =
        List.range' 1 (expectedNumRequests pages) ∧
      (requestIteratorWithNestedData tokenSupply nestedUrl (envOfPagesNested pages)
          (pages.length + 1) sN).thrownError = none) ∧
    mkPageUrl requestUrl page =
      BASE_URL ++ requestUrl ++ "?page=" ++ toString page ++ "&limit=100" ∧
    (requestIterator tokenSupply0 "/admin/v2/users" (envOfPages pagesC1) 4
        s0).callbacks.length = 247 ∧
    (requestIterator tokenSupply0 "/admin/v2/users" (envOfPages pagesC1) 4
        s0).requestedPages = [1, 2, 3] := by
  have henv : ∀ j att, envOfPages pages (1 + j) att = .success (pages.getD j []) := by
    intro j att
    simp [envOfPages, Nat.add_sub_cancel_left]
  have henvN : ∀ j att,
      envOfPagesNested pages (1 + j) att = .success ⟨some (pages.getD j [])⟩ := by
    intro j att
    simp [envOfPagesNested, Nat.add_sub_cancel_left]
  have hflat := iterAux_on_pages tokenSupply requestUrl pages 1 (envOfPages pages) henv s
  have hnested := iterNestedAux_on_pages tokenSupply nestedUrl pages 1
    (envOfPagesNested pages) henvN sN
  have hc1 : ∀ j att, envOfPages pagesC1 (1 + j) att = .success (pagesC1.getD j []) := by
    intro j att
    simp [envOfPages, Nat.add_sub_cancel_left]
  have hconc := iterAux_on_pages tokenSupply0 "/admin/v2/users" pagesC1 1
    (envOfPages pagesC1) hc1 s0
  refine ⟨hflat, hnested, ?_, ?_, ?_⟩
  · simp only [mkPageUrl, String.append_assoc]
    rfl
  · show (requestIteratorAux tokenSupply0 "/admin/v2/users" (envOfPages pagesC1)
      (pagesC1.length + 1) 1 s0).callbacks.length = 247
    rw [hconc.1]
    decide
  · show (requestIteratorAux tokenSupply0 "/admin/v2/users" (envOfPages pagesC1)
      (pagesC1.length + 1) 1 s0).requestedPages = [1, 2, 3]
    rw [hconc.2.1]
    decide

theorem iterAux_noResponse {T : Type} (tokenSupply : Nat → String) (requestUrl : String)
    (env : Nat → Nat → AttemptResult (List T)) (fuel page : Nat) (s : ClientState)
    (h : (requestWithRetry tokenSupply ⟨mkPageUrl requestUrl page, .shared⟩ (env page)
        s).outcome = .noResponse) :
    requestIteratorAux tokenSupply requestUrl env (fuel + 1) page s =
      ⟨[], [page], none,
        (requestWithRetry tokenSupply ⟨mkPageUrl requestUrl page, .shared⟩ (env page)
          s).finalState, true⟩ := by
  simp only [requestIteratorAux]
  rw [h]

/-- A request whose every attempt is rate-limited exhausts the budget after
exactly three physical attempts and three sleeps, returning no response. -/
theorem rwr_429x3 {T : Type} (tokenSupply : Nat → String) (spec : RequestSpec)
    (responses : Nat → AttemptResult T) (statusText url : String)
    (retryAfter : Option Nat) (s : ClientState)
    (h : ∀ i, responses i = .gaxiosError 429 statusText url retryAfter) :
    (requestWithRetry tokenSupply spec responses s).outcome = .noResponse ∧
      (requestWithRetry tokenSupply spec responses s).attempts.length = 3 ∧
      (requestWithRetry tokenSupply spec responses s).sleeps =
        [sleepFor retryAfter, sleepFor retryAfter, sleepFor retryAfter] := by
  have key : requestWithRetry tokenSupply spec responses s =
      requestWithRetryAux tokenSupply spec responses (2 + 1) 0 0 s [] [] := rfl
  rw [key]
  rw [rwrAux_429_cont tokenSupply spec responses statusText url retryAfter 2 0 0 s [] []
    (h 0) (by decide)]
  rw [rwrAux_429_cont tokenSupply spec responses statusText url retryAfter 1 1 1 _ _ _
    (h 1) (by decide)]
  rw [rwrAux_429_stop tokenSupply spec responses statusText url retryAfter 0 2 2 _ _ _
    (h 2) (by decide)]
  simp

/-- C2: when `requestWithRetry` meets three consecutive 429s its retry
budget is exhausted and it returns no response (`undefined`) rather than
raising (exactly 3 attempts were issued); an iterator whose page-2 fetch is
rate-limited to exhaustion stops paginating with no error after delivering
page 1, indistinguishable from the provider reporting an empty page 2. -/
theorem claim_C2 {T : Type} (tokenSupply : Nat → String) (spec : RequestSpec)
    (statusText url requestUrl : String) (retryAfter : Option Nat)
    (p : List T) (s sIter : ClientState) (hp : p.length = PAGE_SIZE) :
    ((requestWithRetry tokenSupply spec
          (fun _ => (.gaxiosError 429 statusText url retryAfter : AttemptResult T))
          s).outcome = RWROutcome.noResponse ∧
      (requestWithRetry tokenSupply spec
          (fun _ => (.gaxiosError 429 statusText url retryAfter : AttemptResult T))
          s).attempts.length = 3) ∧
    ((requestIterator tokenSupply requestUrl (envFullThen429 p statusText url retryAfter)
          2 sIter).callbacks = p ∧
      (requestIterator tokenSupply requestUrl (envFullThen429 p statusText url retryAfter)
          2 sIter).requestedPages = [1, 2] ∧
      (requestIterator tokenSupply requestUrl (envFullThen429 p statusText url retryAfter)
          2 sIter).thrownError = none) ∧
    ((requestIterator tokenSupply requestUrl (envFullThen429 p statusText url retryAfter)
          2 sIter).callbacks =
        (requestIterator tokenSupply requestUrl (envFullThenEmpty p) 2 sIter).callbacks ∧
      (requestIterator tokenSupply requestUrl (envFullThen429 p statusText url retryAfter)
          2 sIter).requestedPages =
        (requestIterator tokenSupply requestUrl (envFullThenEmpty p) 2
          sIter).requestedPages ∧
      (requestIterator tokenSupply requestUrl (envFullThen429 p statusText url retryAfter)
          2 sIter).thrownError =
        (requestIterator tokenSupply requestUrl (envFullThenEmpty p) 2
          sIter).thrownError) := by
  have hall := rwr_429x3 tokenSupply spec
    (fun _ => (.gaxiosError 429 statusText url retryAfter : AttemptResult T))
    statusText url retryAfter s (fun _ => rfl)
  have h1 : envFullThen429 p statusText url retryAfter 1 0 = .success p := rfl
  have hno : (requestWithRetry tokenSupply ⟨mkPageUrl requestUrl 2, .shared⟩
      (envFullThen429 p statusText url retryAfter 2) (ensureTok tokenSupply sIter)).outcome
      = .noResponse :=
    (rwr_429x3 tokenSupply ⟨mkPageUrl requestUrl 2, .shared⟩
      (envFullThen429 p statusText url retryAfter 2) statusText url retryAfter
      (ensureTok tokenSupply sIter) (fun _ => rfl)).1
  have hrun : requestIteratorAux tokenSupply requestUrl
      (envFullThen429 p statusText url retryAfter) (1 + 1) 1 sIter =
      ⟨p ++ [], 1 :: [2], none,
        (requestWithRetry tokenSupply ⟨mkPageUrl requestUrl 2, .shared⟩
          (envFullThen429 p statusText url retryAfter 2)
          (ensureTok tokenSupply sIter)).finalState, true⟩ := by
    rw [iterAux_success_full tokenSupply requestUrl
      (envFullThen429 p statusText url retryAfter) 1 1 sIter p h1 hp]
    rw [iterAux_noResponse tokenSupply requestUrl
      (envFullThen429 p statusText url retryAfter) 0 2 (ensureTok tokenSupply sIter) hno]
  have h1e : envFullThenEmpty p 1 0 = .success p := rfl
  have h2e : envFullThenEmpty p 2 0 = .success ([] : List T) := rfl
  have hrunE : requestIteratorAux tokenSupply requestUrl (envFullThenEmpty p) (1 + 1) 1
      sIter = ⟨p ++ [], 1 :: [2], none, ensureTok tokenSupply (ensureTok tokenSupply sIter),
        true⟩ := by
    rw [iterAux_success_full tokenSupply requestUrl (envFullThenEmpty p) 1 1 sIter p h1e hp]
    rw [iterAux_success_short tokenSupply requestUrl (envFullThenEmpty p) 0 2
      (ensureTok tokenSupply sIter) [] h2e (by simp [PAGE_SIZE])]
  have keyI : requestIterator tokenSupply requestUrl
      (envFullThen429 p statusText url retryAfter) 2 sIter =
      requestIteratorAux tokenSupply requestUrl
        (envFullThen429 p statusText url retryAfter) (1 + 1) 1 sIter := rfl
  have keyE : requestIterator tokenSupply requestUrl (envFullThenEmpty p) 2 sIter =
      requestIteratorAux tokenSupply requestUrl (envFullThenEmpty p) (1 + 1) 1 sIter := rfl
  refine ⟨⟨hall.1, hall.2.1⟩, ?_, ?_⟩
  · rw [keyI, hrun]
    simp
  · rw [keyI, hrun, keyE, hrunE]
    simp

theorem claim_C2_witness :
    (List.range 100).length = PAGE_SIZE ∧
      (requestIterator tokenSupply0 "/admin/v2/users"
        (envFullThen429 (List.range 100) "Too Many Requests" "u" none) 2 s0).callbacks =
        List.range 100 :=
  ⟨by decide,
    (claim_C2 tokenSupply0 ⟨"u", .shared⟩ "Too Many Requests" "u" "/admin/v2/users" none
      (List.range 100) s0 s0 (by decide)).2.1.1⟩

/-- C3 counterexample: the claim "the retried attempt carries the newly
acquired token in its Authorization header, regardless of which headers
object the caller supplied in the request spec" is false: with a request
spec carrying its own headers object (`Authorization: Bearer old`), a 401
is absorbed, `getToken` stores the fresh token in the shared slot
(`Bearer fresh`), yet the retried attempt still carries `Bearer old`. -/
theorem claim_C3_counterexample :
    (requestWithRetry tokenSupplyC3
        ⟨"https://api.umbrella.com/admin/v2/users", .own "Bearer old"⟩ envC3
        ⟨"Bearer old", 0⟩).finalState.auth = "Bearer fresh" ∧
      (requestWithRetry tokenSupplyC3
        ⟨"https://api.umbrella.com/admin/v2/users", .own "Bearer old"⟩ envC3
        ⟨"Bearer old", 0⟩).attempts = ["Bearer old", "Bearer old"] ∧
      "Bearer old" ≠ "Bearer fresh" :=
  ⟨rfl, rfl, by decide⟩

/-- C3 (amended): before each physical attempt `requestWithRetry` ensures a
bearer token via `getToken`, which stores it in the client's shared headers
object; the issued request carries that token exactly when the caller's
request spec references the shared headers object — which every caller in
this repository does.  With shared headers, after a 401 forces a token
refresh between attempts, the retried attempt carries the newly acquired
token in its Authorization header. -/
theorem claim_C3 {T : Type} (tokenSupply : Nat → String) (url statusText endpoint : String)
    (retryAfter : Option Nat) (r : T) (s : ClientState) (hs : s.auth ≠ "") :
    (requestWithRetry tokenSupply ⟨url, .shared⟩
        (envSeq [.gaxiosError 401 statusText endpoint retryAfter, .success r] (.success r))
        s).outcome = RWROutcome.ok r ∧
      (requestWithRetry tokenSupply ⟨url, .shared⟩
        (envSeq [.gaxiosError 401 statusText endpoint retryAfter, .success r] (.success r))
        s).attempts = [s.auth, "Bearer " ++ tokenSupply s.tokenCalls] ∧
      (requestWithRetry tokenSupply ⟨url, .shared⟩
        (envSeq [.gaxiosError 401 statusText endpoint retryAfter, .success r] (.success r))
        s).finalState.auth = "Bearer " ++ tokenSupply s.tokenCalls := by
  have key : requestWithRetry tokenSupply ⟨url, .shared⟩
      (envSeq [.gaxiosError 401 statusText endpoint retryAfter, .success r] (.success r))
      s =
      requestWithRetryAux tokenSupply ⟨url, .shared⟩
        (envSeq [.gaxiosError 401 statusText endpoint retryAfter, .success r] (.success r))
        (2 + 1) 0 0 s [] [] := rfl
  rw [key]
  rw [rwrAux_auth_cont tokenSupply ⟨url, .shared⟩
    (envSeq [.gaxiosError 401 statusText endpoint retryAfter, .success r] (.success r))
    401 statusText endpoint retryAfter 2 0 s [] [] rfl (Or.inl rfl)]
  rw [rwrAux_success tokenSupply ⟨url, .shared⟩
    (envSeq [.gaxiosError 401 statusText endpoint retryAfter, .success r] (.success r))
    r 1 1 1 _ _ _ rfl]
  rw [ensureTok_of_ne tokenSupply s hs]
  rw [ensureTok_of_empty tokenSupply ⟨"", s.tokenCalls⟩ rfl]
  simp [issuedAuthorization]

theorem claim_C3_witness :
    sTok.auth ≠ "" ∧
      (requestWithRetry tokenSupply0 ⟨"u", .shared⟩
        (envSeq [.gaxiosError 401 "Unauthorized" "u" none, .success (3 : Nat)]
          (.success 3)) sTok).attempts = ["Bearer old", "Bearer tok"] :=
  ⟨by decide,
    (claim_C3 tokenSupply0 "u" "Unauthorized" "u" none (3 : Nat) sTok (by decide)).2.1⟩

/-- C4: a 401 (or 403) on the first attempt, while the retry counter is 0,
clears the shared token slot and increments the counter; exactly one
additional credential exchange precedes the retried attempt, and if that
attempt succeeds the response is returned without raising. -/
theorem claim_C4 {T : Type} (tokenSupply : Nat → String) (spec : RequestSpec)
    (statusText endpoint : String) (retryAfter : Option Nat) (r : T) (s : ClientState)
    (hs : s.auth ≠ "") :
    ((requestWithRetry tokenSupply spec
        (envSeq [.gaxiosError 401 statusText endpoint retryAfter, .success r] (.success r))
        s).outcome = RWROutcome.ok r ∧
      (requestWithRetry tokenSupply spec
        (envSeq [.gaxiosError 401 statusText endpoint retryAfter, .success r] (.success r))
        s).finalState.tokenCalls = s.tokenCalls + 1 ∧
      (requestWithRetry tokenSupply spec
        (envSeq [.gaxiosError 401 statusText endpoint retryAfter, .success r] (.success r))
        s).finalState.auth = "Bearer " ++ tokenSupply s.tokenCalls) ∧
    ((requestWithRetry tokenSupply spec
        (envSeq [.gaxiosError 403 statusText endpoint retryAfter, .success r] (.success r))
        s).outcome = RWROutcome.ok r ∧
      (requestWithRetry tokenSupply spec
        (envSeq [.gaxiosError 403 statusText endpoint retryAfter, .success r] (.success r))
        s).finalState.tokenCalls = s.tokenCalls + 1) := by
  constructor
  · have key : requestWithRetry tokenSupply spec
        (envSeq [.gaxiosError 401 statusText endpoint retryAfter, .success r] (.success r))
        s =
        requestWithRetryAux tokenSupply spec
          (envSeq [.gaxiosError 401 statusText endpoint retryAfter, .success r]
            (.success r)) (2 + 1) 0 0 s [] [] := rfl
    rw [key]
    rw [rwrAux_auth_cont tokenSupply spec
      (envSeq [.gaxiosError 401 statusText endpoint retryAfter, .success r] (.success r))
      401 statusText endpoint retryAfter 2 0 s [] [] rfl (Or.inl rfl)]
    rw [rwrAux_success tokenSupply spec
      (envSeq [.gaxiosError 401 statusText endpoint retryAfter, .success r] (.success r))
      r 1 1 1 _ _ _ rfl]
    rw [ensureTok_of_ne tokenSupply s hs]
    rw [ensureTok_of_empty tokenSupply ⟨"", s.tokenCalls⟩ rfl]
    exact ⟨rfl, rfl, rfl⟩
  · have key : requestWithRetry tokenSupply spec
        (envSeq [.gaxiosError 403 statusText endpoint retryAfter, .success r] (.success r))
        s =
        requestWithRetryAux tokenSupply spec
          (envSeq [.gaxiosError 403 statusText endpoint retryAfter, .success r]
            (.success r)) (2 + 1) 0 0 s [] [] := rfl
    rw [key]
    rw [rwrAux_auth_cont tokenSupply spec
      (envSeq [.gaxiosError 403 statusText endpoint retryAfter, .success r] (.success r))
      403 statusText endpoint retryAfter 2 0 s [] [] rfl (Or.inr rfl)]
    rw [rwrAux_success tokenSupply spec
      (envSeq [.gaxiosError 403 statusText endpoint retryAfter, .success r] (.success r))
      r 1 1 1 _ _ _ rfl]
    rw [ensureTok_of_ne tokenSupply s hs]
    rw [ensureTok_of_empty tokenSupply ⟨"", s.tokenCalls⟩ rfl]
    exact ⟨rfl, rfl⟩

theorem claim_C4_witness :
    sTok.auth ≠ "" ∧
      (requestWithRetry tokenSupply0 ⟨"u", .shared⟩
        (envSeq [.gaxiosError 401 "Unauthorized" "u" none, .success (3 : Nat)]
          (.success 3)) sTok).finalState.tokenCalls = sTok.tokenCalls + 1 :=
  ⟨by decide,
    (claim_C4 tokenSupply0 ⟨"u", .shared⟩ "Unauthorized" "u" none (3 : Nat) sTok
      (by decide)).1.2.1⟩

/-- C5: a 401 arriving when the retry counter is already non-zero (whether
the first absorbed failure was a 429 or a 401) raises an
`AuthenticationError` carrying status 401, and no further HTTP attempt is
issued for that logical request (exactly 2 attempts in total). -/
theorem claim_C5 {T : Type} (tokenSupply : Nat → String) (spec : RequestSpec)
    (stA urlA stB urlB : String) (raA raB : Option Nat) (r : T) (s : ClientState) :
    ((requestWithRetry tokenSupply spec
        (envSeq [.gaxiosError 429 stA urlA raA, .gaxiosError 401 stB urlB raB]
          (.success r)) s).outcome =
        RWROutcome.thrown (.authenticationError 401 stB urlB) ∧
      (requestWithRetry tokenSupply spec
        (envSeq [.gaxiosError 429 stA urlA raA, .gaxiosError 401 stB urlB raB]
          (.success r)) s).attempts.length = 2) ∧
    ((requestWithRetry tokenSupply spec
        (envSeq [.gaxiosError 401 stA urlA raA, .gaxiosError 401 stB urlB raB]
          (.success r)) s).outcome =
        RWROutcome.thrown (.authenticationError 401 stB urlB) ∧
      (requestWithRetry tokenSupply spec
        (envSeq [.gaxiosError 401 stA urlA raA, .gaxiosError 401 stB urlB raB]
          (.success r)) s).attempts.length = 2) := by
  constructor
  · have key : requestWithRetry tokenSupply spec
        (envSeq [.gaxiosError 429 stA urlA raA, .gaxiosError 401 stB urlB raB]
          (.success r)) s =
        requestWithRetryAux tokenSupply spec
          (envSeq [.gaxiosError 429 stA urlA raA, .gaxiosError 401 stB urlB raB]
            (.success r)) (2 + 1) 0 0 s [] [] := rfl
    rw [key]
    rw [rwrAux_429_cont tokenSupply spec
      (envSeq [.gaxiosError 429 stA urlA raA, .gaxiosError 401 stB urlB raB] (.success r))
      stA urlA raA 2 0 0 s [] [] rfl (by decide)]
    rw [rwrAux_fatal tokenSupply spec
      (envSeq [.gaxiosError 429 stA urlA raA, .gaxiosError 401 stB urlB raB] (.success r))
      401 stB urlB raB 1 1 1 _ _ _ rfl (by decide) (by decide)]
    exact ⟨rfl, rfl⟩
  · have key : requestWithRetry tokenSupply spec
        (envSeq [.gaxiosError 401 stA urlA raA, .gaxiosError 401 stB urlB raB]
          (.success r)) s =
        requestWithRetryAux tokenSupply spec
          (envSeq [.gaxiosError 401 stA urlA raA, .gaxiosError 401 stB urlB raB]
            (.success r)) (2 + 1) 0 0 s [] [] := rfl
    rw [key]
    rw [rwrAux_auth_cont tokenSupply spec
      (envSeq [.gaxiosError 401 stA urlA raA, .gaxiosError 401 stB urlB raB] (.success r))
      401 stA urlA raA 2 0 s [] [] rfl (Or.inl rfl)]
    rw [rwrAux_fatal tokenSupply spec
      (envSeq [.gaxiosError 401 stA urlA raA, .gaxiosError 401 stB urlB raB] (.success r))
      401 stB urlB raB 1 1 1 _ _ _ rfl (by decide) (by decide)]
    exact ⟨rfl, rfl⟩

/-- C6: a single 429 followed by a success sleeps once — for
`retry-after * 1000` ms when the header is present, else 5000 ms — and then
returns the successful response without raising. -/
theorem claim_C6 {T : Type} (tokenSupply : Nat → String) (spec : RequestSpec)
    (statusText url : String) (retryAfter : Option Nat) (n : Nat) (r : T)
    (s : ClientState) :
    (requestWithRetry tokenSupply spec
        (envSeq [.gaxiosError 429 statusText url retryAfter, .success r] (.success r))
        s).outcome = RWROutcome.ok r ∧
      (requestWithRetry tokenSupply spec
        (envSeq [.gaxiosError 429 statusText url retryAfter, .success r] (.success r))
        s).sleeps = [sleepFor retryAfter] ∧
      sleepFor (some n) = n * 1000 ∧ sleepFor none = 5000 := by
  have key : requestWithRetry tokenSupply spec
      (envSeq [.gaxiosError 429 statusText url retryAfter, .success r] (.success r)) s =
      requestWithRetryAux tokenSupply spec
        (envSeq [.gaxiosError 429 statusText url retryAfter, .success r] (.success r))
        (2 + 1) 0 0 s [] [] := rfl
  rw [key]
  rw [rwrAux_429_cont tokenSupply spec
    (envSeq [.gaxiosError 429 statusText url retryAfter, .success r] (.success r))
    statusText url retryAfter 2 0 0 s [] [] rfl (by decide)]
  rw [rwrAux_success tokenSupply spec
    (envSeq [.gaxiosError 429 statusText url retryAfter, .success r] (.success r))
    r 1 1 1 _ _ _ rfl]
  exact ⟨rfl, rfl, rfl, rfl⟩

/-- C7: absorbing a 429 leaves the shared token slot untouched — whatever
the slot held once the first attempt's `getToken` ran, the retried attempt
is issued with the same value, and no further credential exchange occurs. -/
theorem claim_C7 {T : Type} (tokenSupply : Nat → String) (spec : RequestSpec)
    (statusText url : String) (retryAfter : Option Nat) (r : T) (s : ClientState) :
    (requestWithRetry tokenSupply spec
        (envSeq [.gaxiosError 429 statusText url retryAfter, .success r] (.success r))
        s).finalState = ensureTok tokenSupply s ∧
      (requestWithRetry tokenSupply spec
        (envSeq [.gaxiosError 429 statusText url retryAfter, .success r] (.success r))
        s).attempts =
        [issuedAuthorization spec (ensureTok tokenSupply s),
          issuedAuthorization spec (ensureTok tokenSupply s)] ∧
      (requestWithRetry tokenSupply spec
        (envSeq [.gaxiosError 429 statusText url retryAfter, .success r] (.success r))
        s).finalState.tokenCalls = (ensureTok tokenSupply s).tokenCalls := by
  have key : requestWithRetry tokenSupply spec
      (envSeq [.gaxiosError 429 statusText url retryAfter, .success r] (.success r)) s =
      requestWithRetryAux tokenSupply spec
        (envSeq [.gaxiosError 429 statusText url retryAfter, .success r] (.success r))
        (2 + 1) 0 0 s [] [] := rfl
  rw [key]
  rw [rwrAux_429_cont tokenSupply spec
    (envSeq [.gaxiosError 429 statusText url retryAfter, .success r] (.success r))
    statusText url retryAfter 2 0 0 s [] [] rfl (by decide)]
  rw [rwrAux_success tokenSupply spec
    (envSeq [.gaxiosError 429 statusText url retryAfter, .success r] (.success r))
    r 1 1 1 _ _ _ rfl]
  rw [ensureTok_idem tokenSupply s]
  exact ⟨rfl, rfl, rfl⟩

/-- C8: while no 401/403 is observed, the credential exchange happens at
most once across an arbitrary number of sequential resource iterations:
`getToken` with a non-empty slot returns it immediately with no state
change (and so no HTTP call), and a whole sequence of all-successful
iterations performs at most one exchange in total. -/
theorem claim_C8 {T : Type} (tokenSupply : Nat → String) (s sIt : ClientState)
    (calls : List (IterationCall T)) (hs : s.auth ≠ "")
    (hcalls : ∀ c ∈ calls, allSuccess c.env) :
    getToken tokenSupply s = (s.auth, s) ∧
      (runIterations tokenSupply calls sIt).tokenCalls ≤ sIt.tokenCalls + 1 := by
  refine ⟨getToken_of_ne tokenSupply s hs, ?_⟩
  rcases runIterations_state tokenSupply calls sIt hcalls with h | h
  · rw [h]
    omega
  · rw [h]
    exact ensureTok_tokenCalls_le tokenSupply sIt

/-- Three all-successful iteration calls on a fresh client, for the C8
witness. -/
def callsW : List (IterationCall Nat) :=
  [⟨"/admin/v2/users", fun _ _ => .success [], 1⟩,
    ⟨"/admin/v2/roles", fun _ _ => .success [], 1⟩,
    ⟨"/deployments/v2/sites", fun _ _ => .success [], 1⟩]

theorem claim_C8_witness :
    getToken tokenSupply0 sTok = ("Bearer old", sTok) ∧
      (runIterations tokenSupply0 callsW s0).tokenCalls ≤ s0.tokenCalls + 1 := by
  have h := claim_C8 tokenSupply0 sTok s0 callsW (by decide) ?_
  · exact h
  · intro c hc
    simp only [callsW, List.mem_cons, List.not_mem_nil, or_false] at hc
    rcases hc with h1 | h1 | h1 <;> (subst h1; intro page att; exact ⟨[], rfl⟩)

/-- C9: every fatal error surfaced by `requestWithRetry` is classified by
the failure it wraps: `createIntegrationError` maps 401 to
`AuthenticationError`, 403 to `AuthorizationError` and every other status
to a `ProviderAPIError` carrying status, statusText and endpoint; a
non-absorbed HTTP failure raises the so-classified error, and a non-HTTP
failure raises the generic wrapped error carrying the original message and
name. -/
theorem claim_C9 {T : Type} (tokenSupply : Nat → String) (spec : RequestSpec)
    (status : Nat) (statusText endpoint message name : String) (retryAfter : Option Nat)
    (s : ClientState) :
    createIntegrationError 401 statusText endpoint =
        .authenticationError 401 statusText endpoint ∧
      createIntegrationError 403 statusText endpoint =
        .authorizationError 403 statusText endpoint ∧
      (status ≠ 401 → status ≠ 403 →
        createIntegrationError status statusText endpoint =
          .providerAPIError status statusText endpoint) ∧
      (status ≠ 429 → status ≠ 401 → status ≠ 403 →
        (requestWithRetry tokenSupply spec
          (fun _ => (.gaxiosError status statusText endpoint retryAfter : AttemptResult T))
          s).outcome = .thrown (.providerAPIError status statusText endpoint)) ∧
      (requestWithRetry tokenSupply spec
        (fun _ => (.otherError message name : AttemptResult T)) s).outcome =
        .thrown (.integrationError message name) := by
  have hdef : ∀ st : Nat, st ≠ 401 → st ≠ 403 →
      createIntegrationError st statusText endpoint =
        .providerAPIError st statusText endpoint := by
    intro st h1 h2
    unfold createIntegrationError
    split
    · omega
    · omega
    · rfl
  refine ⟨rfl, rfl, hdef status, ?_, ?_⟩
  · intro h429 h401 h403
    have key : requestWithRetry tokenSupply spec
        (fun _ => (.gaxiosError status statusText endpoint retryAfter : AttemptResult T))
        s =
        requestWithRetryAux tokenSupply spec
          (fun _ => (.gaxiosError status statusText endpoint retryAfter : AttemptResult T))
          (2 + 1) 0 0 s [] [] := rfl
    rw [key]
    rw [rwrAux_fatal tokenSupply spec
      (fun _ => (.gaxiosError status statusText endpoint retryAfter : AttemptResult T))
      status statusText endpoint retryAfter 2 0 0 s [] [] rfl h429
      (by rintro ⟨h | h, _⟩ <;> omega)]
    rw [hdef status h401 h403]
  · have key : requestWithRetry tokenSupply spec
        (fun _ => (.otherError message name : AttemptResult T)) s =
        requestWithRetryAux tokenSupply spec
          (fun _ => (.otherError message name : AttemptResult T)) (2 + 1) 0 0 s [] [] :=
      rfl
    rw [key]
    rw [rwrAux_other tokenSupply spec
      (fun _ => (.otherError message name : AttemptResult T)) message name 2 0 0 s [] []
      rfl]

theorem claim_C9_witness :
    createIntegrationError 500 "Internal Server Error" "/x" =
        .providerAPIError 500 "Internal Server Error" "/x" ∧
      (requestWithRetry tokenSupply0 ⟨"/x", .shared⟩
        (fun _ => (.gaxiosError 500 "Internal Server Error" "/x" none : AttemptResult Nat))
        s0).outcome = .thrown (.providerAPIError 500 "Internal Server Error" "/x") :=
  ⟨(claim_C9 tokenSupply0 ⟨"/x", .shared⟩ 500 "Internal Server Error" "/x" "m" "n" none
      s0 (T := Nat)).2.2.1 (by decide) (by decide),
    (claim_C9 tokenSupply0 ⟨"/x", .shared⟩ 500 "Internal Server Error" "/x" "m" "n" none
      s0 (T := Nat)).2.2.2.1 (by decide) (by decide) (by decide)⟩

/-- C10: `verifyAuthentication` returns normally whenever
`requestWithRetry` does not throw — including when the probe yields no
response because the retry budget was exhausted, so a persistently
rate-limiting provider is reported as successfully verified. -/
theorem claim_C10 {T : Type} (tokenSupply : Nat → String)
    (responses : Nat → AttemptResult T) (s sR : ClientState)
    (statusText endpoint : String) (retryAfter : Option Nat) :
    ((∀ e, (requestWithRetry tokenSupply verifySpec responses s).outcome ≠
        RWROutcome.thrown e) →
      (verifyAuthentication tokenSupply responses s).1 = none) ∧
    (verifyAuthentication tokenSupply
        (fun _ => (.gaxiosError 429 statusText endpoint retryAfter : AttemptResult T))
        sR).1 = none := by
  constructor
  · intro h
    unfold verifyAuthentication
    rcases hout : (requestWithRetry tokenSupply verifySpec responses s).outcome with
      r | e | _
    · simp [hout]
    · exact absurd hout (h e)
    · simp [hout]
  · have hout := (rwr_429x3 tokenSupply verifySpec
      (fun _ => (.gaxiosError 429 statusText endpoint retryAfter : AttemptResult T))
      statusText endpoint retryAfter sR (fun _ => rfl)).1
    unfold verifyAuthentication
    simp [hout]

theorem claim_C10_witness :
    (verifyAuthentication tokenSupply0 (fun _ => AttemptResult.success (0 : Nat)) s0).1 =
        none ∧
      (verifyAuthentication tokenSupply0
        (fun _ => (AttemptResult.gaxiosError 429 "Too Many Requests" "/x" none :
          AttemptResult Nat)) s0).1 = none := by
  have h := claim_C10 tokenSupply0 (fun _ => AttemptResult.success (0 : Nat)) s0 s0
    "Too Many Requests" "/x" none
  refine ⟨h.1 ?_, h.2⟩
  intro e habs
  rw [rwr_success tokenSupply0 verifySpec (fun _ => AttemptResult.success (0 : Nat)) 0 s0
    rfl] at habs
  simp at habs

end CiscoUmbrella
